import Mathlib

/-!
Verification of the GHL MCP server (Cloudflare Worker) against its
natural-language specification.

The development shallowly embeds:
- the sub-account registry (D1 table `sub_accounts`) as a list of records,
- the database helper queries (`getDefaultAccount`, `getAccountById`,
  `getAccountByName` with SQLite LIKE semantics),
- the credential/tenant resolver `resolveClient`,
- the registry-mutating tool handlers (`ghl_add_sub_account`,
  `ghl_set_default_account`, `ghl_remove_sub_account`,
  `ghl_update_sub_account_token`, `ghl_list_sub_accounts`) as pure state
  transformers plus, separately, their try/catch control flow over
  explicit effect outcomes,
- the HTTP client facade's generic `request` primitive and the
  location-targeting of its convenience methods.

Machine effects (D1 statements, fetch, JSON parsing) are passed in as
explicit `Except`-valued outcomes; `Except.error` at the handler boundary
models an uncaught fault reaching the transport layer.
-/

namespace GHLMcp

/-- A row of the `sub_accounts` table (interface `SubAccount` in the worker). -/
structure SubAccount where
  id : String
  name : String
  api_key : String
  account_type : String
  is_default : Nat
  notes : Option String
  created_at : String
  updated_at : String
deriving DecidableEq, Repr

/-- Worker environment bindings (the static fallback pair). -/
structure Env where
  GHL_API_KEY : String
  GHL_LOCATION_ID : String
deriving DecidableEq, Repr

/-- Configuration handed to `new GHLClient({...})`. -/
structure GHLClientConfig where
  apiKey : String
  locationId : String
deriving DecidableEq, Repr

/-- JavaScript truthiness of an optional string argument:
`undefined` and the empty string are falsy. -/
def jsTruthy : Option String → Bool
  | some s => !(s == "")
  | none => false

/-- JavaScript `a || b` for an optional string `a` and string `b`. -/
def jsOr : Option String → String → String
  | some s, b => if s == "" then b else s
  | none, b => b

/-- Query `SELECT * FROM sub_accounts WHERE is_default = 1 LIMIT 1`
(first row in row order). -/
def getDefaultAccount (reg : List SubAccount) : Option SubAccount :=
  reg.find? (fun a => a.is_default == 1)

/-- Query `SELECT * FROM sub_accounts WHERE id = ?`. -/
def getAccountById (reg : List SubAccount) (locationId : String) : Option SubAccount :=
  reg.find? (fun a => a.id == locationId)

/-- Helper for the `%` wildcard: try the continuation on every suffix of
the string (including the string itself and the empty suffix). -/
def likeStar (k : List Char → Bool) : List Char → Bool
  | [] => k []
  | c :: s => k (c :: s) || likeStar k s

/-- SQLite `LIKE` matching on lowered character lists: `%` matches any
(possibly empty) span, `_` matches exactly one character, anything else
matches itself. No ESCAPE clause is used in the source query. -/
def likeMatch : List Char → List Char → Bool
  | [] => fun s => s.isEmpty
  | '%' :: ps => fun s => likeStar (likeMatch ps) s
  | '_' :: ps => fun s =>
    match s with
    | [] => false
    | _ :: s' => likeMatch ps s'
  | p :: ps => fun s =>
    match s with
    | [] => false
    | c :: s' => (p == c) && likeMatch ps s'

/-- Test `LOWER(name) LIKE LOWER('%' || ? || '%')` for one row's name. -/
def nameLikeMatches (arg : String) (rowName : String) : Bool :=
  likeMatch (("%" ++ arg ++ "%").data.map Char.toLower) (rowName.data.map Char.toLower)

/-- Query `SELECT * FROM sub_accounts WHERE LOWER(name) LIKE LOWER(?)` with the
argument wrapped in `%...%` (first row in row order). -/
def getAccountByName (reg : List SubAccount) (name : String) : Option SubAccount :=
  reg.find? (fun a => nameLikeMatches name a.name)

/-- The no-identifier tail of `resolveClient`: default-flagged registration
if any, else the env fallback pair. -/
def resolveClientNoId (env : Env) (reg : List SubAccount) : GHLClientConfig :=
  match getDefaultAccount reg with
  | some d => { apiKey := d.api_key, locationId := d.id }
  | none => { apiKey := env.GHL_API_KEY, locationId := env.GHL_LOCATION_ID }

/-- Resolver `resolveClient(env, locationId?)` over an explicit registry state.
`if (locationId)` in the source is JavaScript truthiness, so a supplied
empty string falls through to the default/env path. -/
def resolveClient (env : Env) (reg : List SubAccount) (locationId? : Option String) :
    GHLClientConfig :=
  match locationId? with
  | some l =>
    if l == "" then resolveClientNoId env reg
    else
      match getAccountById reg l with
      | some account => { apiKey := account.api_key, locationId := account.id }
      | none => { apiKey := env.GHL_API_KEY, locationId := l }
  | none => resolveClientNoId env reg

/-! ## Tool responses and registry-mutating tool handlers (pure state view) -/

/-- An MCP tool response: every handler in the worker returns a single text
content item, optionally flagged as an error. -/
structure ToolResponse where
  text : String
  isError : Bool
deriving DecidableEq, Repr

/-- The catch-block response `Error: ${e.message}` with `isError: true`. -/
def errResp (m : String) : ToolResponse := { text := "Error: " ++ m, isError := true }

/-- A plain success response (no error flag). -/
def okResp (t : String) : ToolResponse := { text := t, isError := false }

/-- Statement `UPDATE sub_accounts SET is_default = 0` (no WHERE clause). -/
def clearDefaults (reg : List SubAccount) : List SubAccount :=
  reg.map (fun a => { a with is_default := 0 })

/-- Statement `INSERT OR REPLACE INTO sub_accounts ...`: a conflicting row (same
primary key) is deleted and the new row inserted. -/
def insertOrReplace (reg : List SubAccount) (rec : SubAccount) : List SubAccount :=
  reg.filter (fun a => !(a.id == rec.id)) ++ [rec]

/-- Arguments of `ghl_add_sub_account`. -/
structure AddArgs where
  locationId : String
  name : String
  apiKey : String
  accountType : String
  isDefault : Bool
  notes : Option String
deriving DecidableEq, Repr

/-- Registry effect of `ghl_add_sub_account`: clear all default flags when
registering a default, then upsert the row. The column list omits
`created_at`, so a replaced row's `created_at` is re-defaulted to now, and
`notes || null` maps an empty notes string to NULL. -/
def addSubAccount (reg : List SubAccount) (a : AddArgs) (now : String) : List SubAccount :=
  let reg1 := if a.isDefault then clearDefaults reg else reg
  insertOrReplace reg1
    { id := a.locationId, name := a.name, api_key := a.apiKey,
      account_type := a.accountType, is_default := if a.isDefault then 1 else 0,
      notes := match a.notes with
        | some s => if s == "" then none else some s
        | none => none,
      created_at := now, updated_at := now }

/-- The account lookup of `ghl_set_default_account`:
`if (locationId) byId else if (name) byName else null`. -/
def chooseAccount (reg : List SubAccount) (locationId? name? : Option String) :
    Option SubAccount :=
  if jsTruthy locationId? then getAccountById reg (jsOr locationId? "")
  else if jsTruthy name? then getAccountByName reg (jsOr name? "")
  else none

/-- Registry effect and response of `ghl_set_default_account`: look the
account up by id or by name; if absent report not-found without touching
the table; otherwise clear every default flag and set the found row's. -/
def setDefaultAccount (reg : List SubAccount) (locationId? name? : Option String)
    (now : String) : List SubAccount × ToolResponse :=
  match chooseAccount reg locationId? name? with
  | none =>
    (reg, { text := "Account not found. Use ghl_list_sub_accounts to see available accounts.",
            isError := true })
  | some account =>
    let reg1 := clearDefaults reg
    let reg2 := reg1.map (fun r =>
      if r.id == account.id then { r with is_default := 1, updated_at := now } else r)
    (reg2, okResp ("Default account set to \"" ++ account.name ++ "\" (" ++ account.id ++ ")"))

/-- Registry effect and response of `ghl_remove_sub_account`. -/
def removeSubAccount (reg : List SubAccount) (locationId : String) :
    List SubAccount × ToolResponse :=
  match getAccountById reg locationId with
  | none => (reg, { text := "Account not found.", isError := true })
  | some account =>
    (reg.filter (fun a => !(a.id == locationId)),
     okResp ("Sub-account \"" ++ account.name ++ "\" (" ++ locationId ++ ") removed from registry."))

/-- Registry effect and response of `ghl_update_sub_account_token`:
`UPDATE sub_accounts SET api_key = ?, updated_at = datetime('now') WHERE id = ?`. -/
def updateSubAccountToken (reg : List SubAccount) (locationId apiKey now : String) :
    List SubAccount × ToolResponse :=
  match getAccountById reg locationId with
  | none => (reg, { text := "Account not found.", isError := true })
  | some account =>
    (reg.map (fun r =>
      if r.id == locationId then { r with api_key := apiKey, updated_at := now } else r),
     okResp ("API token updated for \"" ++ account.name ++ "\" (" ++ locationId ++ ")"))

/-! ## The list tool (credential-free projection) -/

/-- A row of the `ghl_list_sub_accounts` query: every column except
`api_key`, with `is_default` already rendered as in the handler's map. -/
structure SubAccountView where
  id : String
  name : String
  account_type : String
  is_default : String
  notes : Option String
  created_at : String
  updated_at : String
deriving DecidableEq, Repr

/-- Projection of one row for the list tool: drops `api_key` and renders
the default flag as `YES`/`no`. -/
def projectView (a : SubAccount) : SubAccountView :=
  { id := a.id, name := a.name, account_type := a.account_type,
    is_default := if a.is_default == 1 then "YES" else "no",
    notes := a.notes, created_at := a.created_at, updated_at := a.updated_at }

/-- Deterministic rendering of one projected row (stand-in for
`JSON.stringify` on the credential-free record). -/
def renderView (v : SubAccountView) : String :=
  "id=" ++ v.id ++ "; name=" ++ v.name ++ "; account_type=" ++ v.account_type ++
  "; is_default=" ++ v.is_default ++
  "; notes=" ++ (match v.notes with | some n => n | none => "null") ++
  "; created_at=" ++ v.created_at ++ "; updated_at=" ++ v.updated_at

/-- Rendering of the projected row list. -/
def renderViews (vs : List SubAccountView) : String :=
  String.intercalate "\n" (vs.map renderView)

/-- Query `SELECT id, name, account_type, is_default, notes, created_at,
updated_at FROM sub_accounts ORDER BY name`, then the handler's formatting:
empty-registry message, or count plus the rendered rows. -/
def listSubAccounts (reg : List SubAccount) : ToolResponse :=
  let rows := (reg.map projectView).mergeSort (fun a b => a.name ≤ b.name)
  if rows.length == 0 then
    okResp "No sub-accounts registered yet. Use ghl_add_sub_account to add one."
  else
    okResp (toString rows.length ++ " sub-account(s) registered:\n\n" ++ renderViews rows)

/-! ## HTTP client: the generic request primitive -/

/-- The upstream HTTP response as seen by `GHLClient.request`. -/
structure HttpResponse where
  status : Nat
  statusText : String
  body : String
deriving DecidableEq, Repr

/-- Field `resp.ok` of the Fetch API: status in the 2xx range. -/
def respOk (r : HttpResponse) : Bool :=
  decide (200 ≤ r.status) && decide (r.status ≤ 299)

/-- The error message thrown by `GHLClient.request` on a non-ok status. -/
def requestErrorMessage (r : HttpResponse) : String :=
  "GHL API Error " ++ toString r.status ++ ": " ++ r.statusText ++ " - " ++ r.body

/-- Outcome of `GHLClient.request`, abstracting transport and JSON decoding:
on a non-ok status it throws the composed error message without reading
the body as JSON; on an ok status it returns `resp.json()` — the parse of
the raw body, with no further validation. `α` is the caller's expected
shape and `parseJson` the JSON decoding step. -/
def request {α : Type} (parseJson : String → Except String α) (r : HttpResponse) :
    Except String α :=
  if respOk r then parseJson r.body
  else Except.error (requestErrorMessage r)

/-! ## HTTP client: location-targeting of the convenience methods -/

/-- The request each convenience method hands to `request`, projected to
the claim-relevant parts: method, path, query pairs, the `locationId`
field the method injects into the JSON body (if any), and version tag. -/
structure RequestSpec where
  httpMethod : String
  path : String
  query : List (String × String)
  bodyLocationId : Option String
  version : Option String
deriving DecidableEq, Repr

/-- Method `getCustomFieldsByObjectKey`: location in the query string. -/
def getCustomFieldsByObjectKey (c : GHLClientConfig) (objectKey : String)
    (locationId? : Option String) : RequestSpec :=
  { httpMethod := "GET", path := "/custom-fields/object-key/" ++ objectKey,
    query := [("locationId", jsOr locationId? c.locationId)],
    bodyLocationId := none, version := some "2021-07-28" }

/-- Method `createCustomField`: location injected into the body. -/
def createCustomField (c : GHLClientConfig) (dataLocationId? : Option String) : RequestSpec :=
  { httpMethod := "POST", path := "/custom-fields/", query := [],
    bodyLocationId := some (jsOr dataLocationId? c.locationId), version := some "2021-07-28" }

/-- Method `updateCustomField`: location injected into the body. -/
def updateCustomField (c : GHLClientConfig) (id : String)
    (dataLocationId? : Option String) : RequestSpec :=
  { httpMethod := "PUT", path := "/custom-fields/" ++ id, query := [],
    bodyLocationId := some (jsOr dataLocationId? c.locationId), version := some "2021-07-28" }

/-- Method `createCustomFieldFolder`: location injected into the body. -/
def createCustomFieldFolder (c : GHLClientConfig) (dataLocationId? : Option String) :
    RequestSpec :=
  { httpMethod := "POST", path := "/custom-fields/folder", query := [],
    bodyLocationId := some (jsOr dataLocationId? c.locationId), version := some "2021-07-28" }

/-- Method `updateCustomFieldFolder`: location injected into the body. -/
def updateCustomFieldFolder (c : GHLClientConfig) (id : String)
    (dataLocationId? : Option String) : RequestSpec :=
  { httpMethod := "PUT", path := "/custom-fields/folder/" ++ id, query := [],
    bodyLocationId := some (jsOr dataLocationId? c.locationId), version := some "2021-07-28" }

/-- Method `deleteCustomFieldFolder`: location in the query string. -/
def deleteCustomFieldFolder (c : GHLClientConfig) (id : String)
    (locationId? : Option String) : RequestSpec :=
  { httpMethod := "DELETE", path := "/custom-fields/folder/" ++ id,
    query := [("locationId", jsOr locationId? c.locationId)],
    bodyLocationId := none, version := some "2021-07-28" }

/-- Method `getLocationCustomFields`: location in the path. -/
def getLocationCustomFields (c : GHLClientConfig) (locationId? : Option String) : RequestSpec :=
  { httpMethod := "GET", path := "/locations/" ++ jsOr locationId? c.locationId ++ "/customFields",
    query := [], bodyLocationId := none, version := some "2021-07-28" }

/-- Method `getLocationCustomField`: location in the path. -/
def getLocationCustomField (c : GHLClientConfig) (fieldId : String)
    (locationId? : Option String) : RequestSpec :=
  { httpMethod := "GET",
    path := "/locations/" ++ jsOr locationId? c.locationId ++ "/customFields/" ++ fieldId,
    query := [], bodyLocationId := none, version := some "2021-07-28" }

/-- Method `createLocationCustomField`: location in the path. -/
def createLocationCustomField (c : GHLClientConfig) (locationId? : Option String) : RequestSpec :=
  { httpMethod := "POST",
    path := "/locations/" ++ jsOr locationId? c.locationId ++ "/customFields",
    query := [], bodyLocationId := none, version := some "2021-07-28" }

/-- Method `updateLocationCustomField`: location in the path. -/
def updateLocationCustomField (c : GHLClientConfig) (fieldId : String)
    (locationId? : Option String) : RequestSpec :=
  { httpMethod := "PUT",
    path := "/locations/" ++ jsOr locationId? c.locationId ++ "/customFields/" ++ fieldId,
    query := [], bodyLocationId := none, version := some "2021-07-28" }

/-- Method `deleteLocationCustomField`: location in the path. -/
def deleteLocationCustomField (c : GHLClientConfig) (fieldId : String)
    (locationId? : Option String) : RequestSpec :=
  { httpMethod := "DELETE",
    path := "/locations/" ++ jsOr locationId? c.locationId ++ "/customFields/" ++ fieldId,
    query := [], bodyLocationId := none, version := some "2021-07-28" }

/-- Method `getCustomValues`: location in the path. -/
def getCustomValues (c : GHLClientConfig) (locationId? : Option String) : RequestSpec :=
  { httpMethod := "GET", path := "/locations/" ++ jsOr locationId? c.locationId ++ "/customValues",
    query := [], bodyLocationId := none, version := some "2021-07-28" }

/-- Method `getCustomValue`: location in the path. -/
def getCustomValue (c : GHLClientConfig) (valueId : String)
    (locationId? : Option String) : RequestSpec :=
  { httpMethod := "GET",
    path := "/locations/" ++ jsOr locationId? c.locationId ++ "/customValues/" ++ valueId,
    query := [], bodyLocationId := none, version := some "2021-07-28" }

/-- Method `createCustomValue`: location in the path. -/
def createCustomValue (c : GHLClientConfig) (locationId? : Option String) : RequestSpec :=
  { httpMethod := "POST",
    path := "/locations/" ++ jsOr locationId? c.locationId ++ "/customValues",
    query := [], bodyLocationId := none, version := some "2021-07-28" }

/-- Method `updateCustomValue`: location in the path. -/
def updateCustomValue (c : GHLClientConfig) (valueId : String)
    (locationId? : Option String) : RequestSpec :=
  { httpMethod := "PUT",
    path := "/locations/" ++ jsOr locationId? c.locationId ++ "/customValues/" ++ valueId,
    query := [], bodyLocationId := none, version := some "2021-07-28" }

/-- Method `deleteCustomValue`: location in the path. -/
def deleteCustomValue (c : GHLClientConfig) (valueId : String)
    (locationId? : Option String) : RequestSpec :=
  { httpMethod := "DELETE",
    path := "/locations/" ++ jsOr locationId? c.locationId ++ "/customValues/" ++ valueId,
    query := [], bodyLocationId := none, version := some "2021-07-28" }

/-! ## Bulk creation: per-item aggregation -/

/-- One entry of the bulk tool's `results` array. -/
structure BulkItem where
  name : String
  success : Bool
  error : Option String
  data : Option String
deriving DecidableEq, Repr

/-- The bulk loop body: each field's upstream outcome is converted to a
per-item record — success keeps the data, failure keeps the thrown
message verbatim; the loop never aborts. -/
def bulkResults (outcomes : List (String × Except String String)) : List BulkItem :=
  outcomes.map (fun p =>
    match p.2 with
    | Except.ok d => { name := p.1, success := true, error := none, data := some d }
    | Except.error m => { name := p.1, success := false, error := some m, data := none })

/-- Count `results.filter((r) => r.success).length`. -/
def successCount (rs : List BulkItem) : Nat := (rs.filter (fun r => r.success)).length

/-- Count `results.filter((r) => !r.success).length`. -/
def failCount (rs : List BulkItem) : Nat := (rs.filter (fun r => !r.success)).length

/-- Deterministic rendering of one bulk result record. -/
def renderBulkItem (r : BulkItem) : String :=
  "name=" ++ r.name ++ "; success=" ++ (if r.success then "true" else "false") ++
  (match r.error with | some m => "; error=" ++ m | none => "") ++
  (match r.data with | some d => "; data=" ++ d | none => "")

/-- Rendering of the bulk result list. -/
def renderBulkItems (rs : List BulkItem) : String :=
  String.intercalate "\n" (rs.map renderBulkItem)

/-- The bulk tool's response text: aggregate counts plus the result list. -/
def bulkResponseText (rs : List BulkItem) : String :=
  "Bulk create: " ++ toString (successCount rs) ++ " succeeded, " ++
  toString (failCount rs) ++ " failed.\n\n" ++ renderBulkItems rs

/-! ## Tool handler control flow

Each handler is embedded as a function of the outcomes of its fallible
steps (D1 statements, tenant resolution, facade calls), returning
`Except String ToolResponse`; an `Except.error` result models an uncaught
fault propagating to the transport layer, while a caught failure becomes
an `isError` response. Every handler of the worker wraps its whole body in
try/catch — except `ghl_bulk_create_contact_custom_fields`, whose
`resolveClient` call stands before the loop, outside any try. -/

/-- Handler `ghl_add_sub_account`: all database work inside try. -/
def ghl_add_sub_account_h (dbWork : Except String Unit) (a : AddArgs) :
    Except String ToolResponse :=
  pure (match dbWork with
    | Except.ok _ =>
      okResp ("Sub-account \"" ++ a.name ++ "\" (" ++ a.locationId ++
        ") registered successfully!" ++ (if a.isDefault then " Set as default." else ""))
    | Except.error m => errResp m)

/-- Handler `ghl_list_sub_accounts`: query inside try, then formatting. -/
def ghl_list_sub_accounts_h (dbRead : Except String (List SubAccount)) :
    Except String ToolResponse :=
  pure (match dbRead with
    | Except.ok reg => listSubAccounts reg
    | Except.error m => errResp m)

/-- Handler `ghl_set_default_account`: lookup and the two UPDATE
statements all inside try; a missing account is answered with an in-band
not-found error response. -/
def ghl_set_default_account_h (dbRead : Except String (List SubAccount))
    (dbWrite : Except String Unit) (locationId? name? : Option String) :
    Except String ToolResponse :=
  pure (match dbRead with
    | Except.error m => errResp m
    | Except.ok reg =>
      match chooseAccount reg locationId? name? with
      | none =>
        { text := "Account not found. Use ghl_list_sub_accounts to see available accounts.",
          isError := true }
      | some account =>
        match dbWrite with
        | Except.error m => errResp m
        | Except.ok _ =>
          okResp ("Default account set to \"" ++ account.name ++ "\" (" ++ account.id ++ ")"))

/-- Handler `ghl_remove_sub_account`. -/
def ghl_remove_sub_account_h (dbRead : Except String (List SubAccount))
    (dbDelete : Except String Unit) (locationId : String) : Except String ToolResponse :=
  pure (match dbRead with
    | Except.error m => errResp m
    | Except.ok reg =>
      match getAccountById reg locationId with
      | none => { text := "Account not found.", isError := true }
      | some account =>
        match dbDelete with
        | Except.error m => errResp m
        | Except.ok _ =>
          okResp ("Sub-account \"" ++ account.name ++ "\" (" ++ locationId ++
            ") removed from registry."))

/-- Handler `ghl_update_sub_account_token`. -/
def ghl_update_sub_account_token_h (dbRead : Except String (List SubAccount))
    (dbWrite : Except String Unit) (locationId : String) : Except String ToolResponse :=
  pure (match dbRead with
    | Except.error m => errResp m
    | Except.ok reg =>
      match getAccountById reg locationId with
      | none => { text := "Account not found.", isError := true }
      | some account =>
        match dbWrite with
        | Except.error m => errResp m
        | Except.ok _ =>
          okResp ("API token updated for \"" ++ account.name ++ "\" (" ++ locationId ++ ")"))

/-- Common try-block of the facade-backed read tools: resolve, call,
stringify — any failure is caught into an error response. -/
def facadeTry (resolve : Except String GHLClientConfig)
    (call : GHLClientConfig → Except String String) (fmt : String → String) : ToolResponse :=
  match (do let c ← resolve; call c : Except String String) with
  | Except.ok t => okResp (fmt t)
  | Except.error m => errResp m

/-- Handler `ghl_list_contact_custom_fields`. -/
def ghl_list_contact_custom_fields_h (resolve : Except String GHLClientConfig)
    (call : GHLClientConfig → Except String String) : Except String ToolResponse :=
  pure (facadeTry resolve call (fun t => t))

/-- Handler `ghl_get_contact_custom_field`. -/
def ghl_get_contact_custom_field_h (resolve : Except String GHLClientConfig)
    (call : GHLClientConfig → Except String String) : Except String ToolResponse :=
  pure (facadeTry resolve call (fun t => t))

/-- Handler `ghl_create_contact_custom_field`. -/
def ghl_create_contact_custom_field_h (resolve : Except String GHLClientConfig)
    (call : GHLClientConfig → Except String String) (name : String) :
    Except String ToolResponse :=
  pure (facadeTry resolve call
    (fun t => "Custom field \"" ++ name ++ "\" created!\n\n" ++ t))

/-- Handler `ghl_update_contact_custom_field`. -/
def ghl_update_contact_custom_field_h (resolve : Except String GHLClientConfig)
    (call : GHLClientConfig → Except String String) : Except String ToolResponse :=
  pure (facadeTry resolve call (fun t => "Custom field updated!\n\n" ++ t))

/-- Handler `ghl_delete_contact_custom_field`. -/
def ghl_delete_contact_custom_field_h (resolve : Except String GHLClientConfig)
    (call : GHLClientConfig → Except String String) : Except String ToolResponse :=
  pure (facadeTry resolve call (fun t => "Custom field deleted.\n\n" ++ t))

/-- Handler `ghl_list_object_custom_fields`. -/
def ghl_list_object_custom_fields_h (resolve : Except String GHLClientConfig)
    (call : GHLClientConfig → Except String String) : Except String ToolResponse :=
  pure (facadeTry resolve call (fun t => t))

/-- Handler `ghl_create_object_custom_field`. -/
def ghl_create_object_custom_field_h (resolve : Except String GHLClientConfig)
    (call : GHLClientConfig → Except String String) : Except String ToolResponse :=
  pure (facadeTry resolve call (fun t => "Object custom field created!\n\n" ++ t))

/-- Handler `ghl_create_custom_field_folder`. -/
def ghl_create_custom_field_folder_h (resolve : Except String GHLClientConfig)
    (call : GHLClientConfig → Except String String) (name : String) :
    Except String ToolResponse :=
  pure (facadeTry resolve call (fun t => "Folder \"" ++ name ++ "\" created!\n\n" ++ t))

/-- Handler `ghl_list_custom_values`. -/
def ghl_list_custom_values_h (resolve : Except String GHLClientConfig)
    (call : GHLClientConfig → Except String String) : Except String ToolResponse :=
  pure (facadeTry resolve call (fun t => t))

/-- Handler `ghl_create_custom_value`. -/
def ghl_create_custom_value_h (resolve : Except String GHLClientConfig)
    (call : GHLClientConfig → Except String String) (name : String) :
    Except String ToolResponse :=
  pure (facadeTry resolve call (fun t => "Custom value \"" ++ name ++ "\" created!\n\n" ++ t))

/-- Handler `ghl_update_custom_value`. -/
def ghl_update_custom_value_h (resolve : Except String GHLClientConfig)
    (call : GHLClientConfig → Except String String) : Except String ToolResponse :=
  pure (facadeTry resolve call (fun t => "Custom value updated!\n\n" ++ t))

/-- Handler `ghl_delete_custom_value`. -/
def ghl_delete_custom_value_h (resolve : Except String GHLClientConfig)
    (call : GHLClientConfig → Except String String) : Except String ToolResponse :=
  pure (facadeTry resolve call (fun t => "Custom value deleted.\n\n" ++ t))

/-- One entry of the bulk tool's `fields` argument. -/
structure FieldDef where
  name : String
  dataType : String
  placeholder : Option String
  options : Option (List String)
  isRequired : Option Bool
  model : Option String
deriving DecidableEq, Repr

/-- Handler `ghl_bulk_create_contact_custom_fields`: `resolveClient` is
awaited before the loop and outside any try/catch, so its failure
propagates; each per-item facade call sits in its own try. -/
def ghl_bulk_create_contact_custom_fields_h (resolve : Except String GHLClientConfig)
    (call : GHLClientConfig → FieldDef → Except String String)
    (fields : List FieldDef) : Except String ToolResponse := do
  let client ← resolve
  let results := bulkResults (fields.map (fun f => (f.name, call client f)))
  pure (okResp (bulkResponseText results))

/-! ## Registry operations as a step relation, and the default-flag invariant -/

/-- One registry-touching tool invocation (sequential execution model). -/
inductive RegOp where
  | add (a : AddArgs) (now : String)
  | setDefault (locationId? name? : Option String) (now : String)
  | remove (locationId : String)
  | updateToken (locationId apiKey now : String)
  | list
deriving DecidableEq, Repr

/-- Registry state after one tool invocation. -/
def applyOp (reg : List SubAccount) : RegOp → List SubAccount
  | RegOp.add a now => addSubAccount reg a now
  | RegOp.setDefault l n now => (setDefaultAccount reg l n now).1
  | RegOp.remove l => (removeSubAccount reg l).1
  | RegOp.updateToken l k now => (updateSubAccountToken reg l k now).1
  | RegOp.list => reg

/-- Table well-formedness: `id` is the primary key, so row ids are distinct. -/
def WF (reg : List SubAccount) : Prop := (reg.map SubAccount.id).Nodup

instance (reg : List SubAccount) : Decidable (WF reg) :=
  inferInstanceAs (Decidable ((reg.map SubAccount.id).Nodup))

/-- Number of rows carrying the default flag. -/
def defaultCount (reg : List SubAccount) : Nat :=
  reg.countP (fun a => a.is_default == 1)

/-- Tests whether an operation is a registration upsert with the default flag. -/
def opAddsDefault : RegOp → Bool
  | RegOp.add a _ => a.isDefault
  | _ => false

/-- Tests whether an operation is a set-default call that finds its account. -/
def opSetsDefaultOk (reg : List SubAccount) : RegOp → Bool
  | RegOp.setDefault l n _ => (chooseAccount reg l n).isSome
  | _ => false

lemma map_id_clearDefaults (reg : List SubAccount) :
    (clearDefaults reg).map SubAccount.id = reg.map SubAccount.id := by
  simp [clearDefaults, List.map_map]

lemma defaultCount_clearDefaults (reg : List SubAccount) :
    defaultCount (clearDefaults reg) = 0 := by
  simp only [defaultCount, clearDefaults, List.countP_map]
  exact List.countP_eq_zero.mpr (fun a _ => by simp [Function.comp])

lemma defaultCount_map_preserving {f : SubAccount → SubAccount}
    (h : ∀ a, (f a).is_default = a.is_default) (reg : List SubAccount) :
    defaultCount (reg.map f) = defaultCount reg := by
  simp only [defaultCount, List.countP_map]
  congr 1
  funext a
  simp [Function.comp, h a]

lemma countP_beq_id_eq_one : ∀ (reg : List SubAccount), WF reg →
    ∀ a ∈ reg, reg.countP (fun r => r.id == a.id) = 1 := by
  intro reg
  induction reg with
  | nil => intro _ a ha; cases ha
  | cons b t ih =>
    intro hWF a ha
    have hWF' : (t.map SubAccount.id).Nodup ∧ b.id ∉ t.map SubAccount.id := by
      have := hWF
      simp only [WF, List.map_cons, List.nodup_cons] at this
      exact ⟨this.2, this.1⟩
    rcases List.mem_cons.mp ha with hab | hat
    · subst hab
      have ht0 : t.countP (fun r => r.id == a.id) = 0 := by
        apply List.countP_eq_zero.mpr
        intro x hx hxa
        exact hWF'.2 (by
          have : x.id = a.id := by simpa using hxa
          exact this ▸ List.mem_map_of_mem SubAccount.id hx)
      simp [List.countP_cons, ht0]
    · have hne : ¬(b.id == a.id) = true := by
        intro hba
        have : b.id = a.id := by simpa using hba
        exact hWF'.2 (this ▸ List.mem_map_of_mem SubAccount.id hat)
      have := ih hWF'.1 a hat
      simp [List.countP_cons, this, hne]

lemma chooseAccount_mem {reg : List SubAccount} {l n : Option String} {a : SubAccount}
    (h : chooseAccount reg l n = some a) : a ∈ reg := by
  unfold chooseAccount at h
  split at h
  · exact List.mem_of_find?_eq_some h
  · split at h
    · exact List.mem_of_find?_eq_some h
    · cases h

lemma map_id_map_preserving {f : SubAccount → SubAccount}
    (h : ∀ a, (f a).id = a.id) (reg : List SubAccount) :
    (reg.map f).map SubAccount.id = reg.map SubAccount.id := by
  rw [List.map_map]
  exact List.map_congr_left (fun a _ => h a)

lemma wf_map_preserving {f : SubAccount → SubAccount}
    (h : ∀ a, (f a).id = a.id) {reg : List SubAccount} (hWF : WF reg) :
    WF (reg.map f) := by
  unfold WF
  rw [map_id_map_preserving h]
  exact hWF

lemma wf_filter (p : SubAccount → Bool) {reg : List SubAccount} (hWF : WF reg) :
    WF (reg.filter p) :=
  ((List.filter_sublist reg).map SubAccount.id).nodup hWF

lemma wf_insertOrReplace (rec : SubAccount) {reg : List SubAccount} (hWF : WF reg) :
    WF (insertOrReplace reg rec) := by
  unfold WF insertOrReplace
  rw [List.map_append]
  refine List.nodup_append.mpr ⟨?_, by simp, ?_⟩
  · exact wf_filter _ hWF
  · intro x hx hx2
    have hxr : x = rec.id := by simpa using hx2
    rcases List.mem_map.mp hx with ⟨b, hb, hbid⟩
    have hbf := (List.mem_filter.mp hb).2
    rw [hbid, hxr] at hbf
    simp at hbf

lemma wf_clearDefaults {reg : List SubAccount} (hWF : WF reg) : WF (clearDefaults reg) := by
  unfold WF
  rw [map_id_clearDefaults]
  exact hWF

lemma wf_addSubAccount (reg : List SubAccount) (a : AddArgs) (now : String) (hWF : WF reg) :
    WF (addSubAccount reg a now) := by
  have h1 : WF (if a.isDefault then clearDefaults reg else reg) := by
    split
    · exact wf_clearDefaults hWF
    · exact hWF
  exact wf_insertOrReplace _ h1

lemma wf_setDefaultAccount (reg : List SubAccount) (l n : Option String) (now : String)
    (hWF : WF reg) : WF (setDefaultAccount reg l n now).1 := by
  show WF ((setDefaultAccount reg l n now).1)
  unfold setDefaultAccount
  cases hc : chooseAccount reg l n with
  | none => exact hWF
  | some acc =>
    exact wf_map_preserving
      (f := fun r =>
        if r.id == acc.id then { r with is_default := 1, updated_at := now } else r)
      (fun r => by dsimp only; split <;> rfl) (wf_clearDefaults hWF)

lemma wf_removeSubAccount (reg : List SubAccount) (l : String) (hWF : WF reg) :
    WF (removeSubAccount reg l).1 := by
  unfold removeSubAccount
  cases hc : getAccountById reg l with
  | none => exact hWF
  | some acc => exact wf_filter _ hWF

lemma wf_updateSubAccountToken (reg : List SubAccount) (l k now : String) (hWF : WF reg) :
    WF (updateSubAccountToken reg l k now).1 := by
  unfold updateSubAccountToken
  cases hc : getAccountById reg l with
  | none => exact hWF
  | some acc =>
    exact wf_map_preserving
      (f := fun r => if r.id == l then { r with api_key := k, updated_at := now } else r)
      (fun r => by dsimp only; split <;> rfl) hWF

lemma wf_applyOp (reg : List SubAccount) (op : RegOp) (hWF : WF reg) :
    WF (applyOp reg op) := by
  cases op with
  | add a now => exact wf_addSubAccount reg a now hWF
  | setDefault l n now => exact wf_setDefaultAccount reg l n now hWF
  | remove l => exact wf_removeSubAccount reg l hWF
  | updateToken l k now => exact wf_updateSubAccountToken reg l k now hWF
  | list => exact hWF

lemma is_default_of_mem_clearDefaults {reg : List SubAccount} {x : SubAccount}
    (hx : x ∈ clearDefaults reg) : x.is_default = 0 := by
  rcases List.mem_map.mp hx with ⟨b, _, rfl⟩
  rfl

lemma countP_isDef_filter_clearDefaults (reg : List SubAccount) (q : SubAccount → Bool) :
    ((clearDefaults reg).filter q).countP (fun x => x.is_default == 1) = 0 :=
  List.countP_eq_zero.mpr (fun x hx h1 => by
    have h0 := is_default_of_mem_clearDefaults (List.mem_of_mem_filter hx)
    rw [h0] at h1
    simp at h1)

lemma defaultCount_addSubAccount_default (reg : List SubAccount) (a : AddArgs) (now : String)
    (h : a.isDefault = true) : defaultCount (addSubAccount reg a now) = 1 := by
  unfold addSubAccount
  rw [h]
  simp [insertOrReplace, defaultCount, List.countP_append, List.countP_cons]
  intro x hx _
  simp [is_default_of_mem_clearDefaults hx]

lemma defaultCount_addSubAccount_le (reg : List SubAccount) (a : AddArgs) (now : String)
    (hdc : defaultCount reg ≤ 1) : defaultCount (addSubAccount reg a now) ≤ 1 := by
  cases h : a.isDefault with
  | true => rw [defaultCount_addSubAccount_default reg a now h]
  | false =>
    unfold addSubAccount
    rw [h]
    simp [insertOrReplace, defaultCount, List.countP_append, List.countP_cons]
    exact le_trans ((List.filter_sublist reg).countP_le _) hdc

lemma defaultCount_setDefault_found {reg : List SubAccount} {l n : Option String}
    {acc : SubAccount} (now : String) (hWF : WF reg)
    (hc : chooseAccount reg l n = some acc) :
    defaultCount (setDefaultAccount reg l n now).1 = 1 := by
  unfold setDefaultAccount
  rw [hc]
  simp only [clearDefaults, List.map_map, defaultCount, List.countP_map]
  have hpt : ((fun a => a.is_default == 1) ∘
        (fun r => if r.id == acc.id then { r with is_default := 1, updated_at := now } else r) ∘
        (fun a => { a with is_default := 0 }))
      = fun (r : SubAccount) => r.id == acc.id := by
    funext r
    by_cases hid : (r.id == acc.id) = true
    · simp [Function.comp, hid]
    · simp only [Bool.not_eq_true] at hid
      simp [Function.comp, hid]
  rw [hpt]
  exact countP_beq_id_eq_one reg hWF acc (chooseAccount_mem hc)

lemma defaultCount_setDefault_le (reg : List SubAccount) (l n : Option String) (now : String)
    (hWF : WF reg) (hdc : defaultCount reg ≤ 1) :
    defaultCount (setDefaultAccount reg l n now).1 ≤ 1 := by
  cases hc : chooseAccount reg l n with
  | none => unfold setDefaultAccount; rw [hc]; exact hdc
  | some acc => rw [defaultCount_setDefault_found now hWF hc]

lemma defaultCount_remove_le (reg : List SubAccount) (l : String)
    (hdc : defaultCount reg ≤ 1) : defaultCount (removeSubAccount reg l).1 ≤ 1 := by
  unfold removeSubAccount
  cases hc : getAccountById reg l with
  | none => exact hdc
  | some acc =>
    simp only
    exact le_trans (((List.filter_sublist reg)).countP_le _) hdc

lemma defaultCount_updateToken_le (reg : List SubAccount) (l k now : String)
    (hdc : defaultCount reg ≤ 1) : defaultCount (updateSubAccountToken reg l k now).1 ≤ 1 := by
  unfold updateSubAccountToken
  cases hc : getAccountById reg l with
  | none => exact hdc
  | some acc =>
    simp only
    rw [defaultCount_map_preserving (fun r => by split <;> rfl)]
    exact hdc

lemma defaultCount_applyOp_le (reg : List SubAccount) (op : RegOp)
    (hWF : WF reg) (hdc : defaultCount reg ≤ 1) :
    defaultCount (applyOp reg op) ≤ 1 := by
  cases op with
  | add a now => exact defaultCount_addSubAccount_le reg a now hdc
  | setDefault l n now => exact defaultCount_setDefault_le reg l n now hWF hdc
  | remove l => exact defaultCount_remove_le reg l hdc
  | updateToken l k now => exact defaultCount_updateToken_le reg l k now hdc
  | list => exact hdc

lemma invariant_foldl (ops : List RegOp) : ∀ reg : List SubAccount,
    WF reg → defaultCount reg ≤ 1 →
    WF (ops.foldl applyOp reg) ∧ defaultCount (ops.foldl applyOp reg) ≤ 1 := by
  induction ops with
  | nil => intro reg hWF hdc; exact ⟨hWF, hdc⟩
  | cons op t ih =>
    intro reg hWF hdc
    exact ih (applyOp reg op) (wf_applyOp reg op hWF) (defaultCount_applyOp_le reg op hWF hdc)

/-! ## Auxiliary lemmas for the bulk loop -/

/-- Upstream-failure test on one loop iteration's outcome. -/
def isErrOutcome (p : String × Except String String) : Bool :=
  match p.2 with
  | Except.error _ => true
  | Except.ok _ => false

lemma bulkResults_name_map (outs : List (String × Except String String)) :
    (bulkResults outs).map BulkItem.name = outs.map Prod.fst := by
  induction outs with
  | nil => rfl
  | cons p t ih =>
    rcases p with ⟨n, r⟩
    cases r <;> simpa [bulkResults] using ih

lemma bulkResults_length (outs : List (String × Except String String)) :
    (bulkResults outs).length = outs.length := by
  simp [bulkResults]

lemma failCount_bulkResults (outs : List (String × Except String String)) :
    failCount (bulkResults outs) = (outs.filter isErrOutcome).length := by
  induction outs with
  | nil => rfl
  | cons p t ih =>
    rcases p with ⟨n, r⟩
    cases r <;> simpa [bulkResults, failCount, isErrOutcome, List.filter_cons] using ih

lemma successCount_add_failCount (rs : List BulkItem) :
    successCount rs + failCount rs = rs.length := by
  induction rs with
  | nil => rfl
  | cons r t ih =>
    cases hr : r.success <;>
      simp [successCount, failCount, List.filter_cons, hr] at ih ⊢ <;> omega

/-! ## Concrete sample data used by witnesses and counterexamples -/

/-- A registered default sub-account. -/
def acct1 : SubAccount :=
  { id := "loc_123", name := "Acme", api_key := "pit-111", account_type := "sub_account",
    is_default := 1, notes := none, created_at := "2024-01-01", updated_at := "2024-01-01" }

/-- A registered non-default sub-account. -/
def acct2 : SubAccount :=
  { id := "loc_456", name := "Bravo Clinic", api_key := "pit-222",
    account_type := "sub_account", is_default := 0, notes := some "second",
    created_at := "2024-01-02", updated_at := "2024-01-02" }

/-- A two-row registry with one default. -/
def sampleReg : List SubAccount := [acct1, acct2]

/-- Sample worker environment (fallback pair). -/
def sampleEnv : Env := { GHL_API_KEY := "env-key", GHL_LOCATION_ID := "env-loc" }

/-- A registration whose identifier is the empty string (accepted by the
tool's schema, which only requires a string). -/
def emptyIdAcct : SubAccount :=
  { id := "", name := "EmptyId", api_key := "pit-empty", account_type := "sub_account",
    is_default := 0, notes := none, created_at := "2024-01-03", updated_at := "2024-01-03" }

/-- A registry containing only the empty-identifier registration. -/
def regEmptyId : List SubAccount := [emptyIdAcct]

/-! ## Claims -/

/-- C1, counterexample to the claim as stated: with a registration whose
identifier is the empty string, a resolution request that supplies the
empty string as its tenant identifier matches that registration
(clause 1 of the claim would demand its stored credential), yet
`resolveClient` returns the process-wide fallback pair instead, because
`if (locationId)` treats the supplied empty string as absent. -/
theorem c1_resolution_order_counterexample :
    getAccountById regEmptyId "" = some emptyIdAcct
    ∧ resolveClient sampleEnv regEmptyId (some "")
        = { apiKey := "env-key", locationId := "env-loc" }
    ∧ ¬ resolveClient sampleEnv regEmptyId (some "")
        = { apiKey := emptyIdAcct.api_key, locationId := emptyIdAcct.id } := by
  decide

/-- C1 (amended): the resolver observes first-match-wins order once a
supplied empty identifier is treated as absent: (1) a supplied non-empty
identifier with a matching registration yields that registration's
credential and identifier, regardless of default flags; (2) a supplied
non-empty identifier without a registration yields the fallback
credential paired with the supplied identifier; (3) with no (or an empty)
identifier, a default-flagged registration yields its credential and
identifier; (4) otherwise the fallback credential and fallback
identifier. -/
theorem c1_resolution_order (env : Env) (reg : List SubAccount) :
    (∀ l a, ¬l = "" → getAccountById reg l = some a →
      resolveClient env reg (some l) = { apiKey := a.api_key, locationId := a.id })
    ∧ (∀ l, ¬l = "" → getAccountById reg l = none →
      resolveClient env reg (some l) = { apiKey := env.GHL_API_KEY, locationId := l })
    ∧ (∀ lid, jsTruthy lid = false → ∀ d, getDefaultAccount reg = some d →
      resolveClient env reg lid = { apiKey := d.api_key, locationId := d.id })
    ∧ (∀ lid, jsTruthy lid = false → getDefaultAccount reg = none →
      resolveClient env reg lid = { apiKey := env.GHL_API_KEY, locationId := env.GHL_LOCATION_ID }) := by
  refine ⟨?_, ?_, ?_, ?_⟩
  · intro l a hne hfind
    simp [resolveClient, hfind, hne]
  · intro l hne hfind
    simp [resolveClient, hfind, hne]
  · intro lid hfalsy d hd
    cases lid with
    | none => simp [resolveClient, resolveClientNoId, hd]
    | some s =>
      have hs : s = "" := by simpa [jsTruthy] using hfalsy
      subst hs
      simp [resolveClient, resolveClientNoId, hd]
  · intro lid hfalsy hd
    cases lid with
    | none => simp [resolveClient, resolveClientNoId, hd]
    | some s =>
      have hs : s = "" := by simpa [jsTruthy] using hfalsy
      subst hs
      simp [resolveClient, resolveClientNoId, hd]

/-- C1 witness: the four amended clauses evaluated on concrete registries. -/
theorem c1_resolution_order_witness :
    resolveClient sampleEnv sampleReg (some "loc_456")
        = { apiKey := "pit-222", locationId := "loc_456" }
    ∧ resolveClient sampleEnv sampleReg (some "loc_999")
        = { apiKey := "env-key", locationId := "loc_999" }
    ∧ resolveClient sampleEnv sampleReg none
        = { apiKey := "pit-111", locationId := "loc_123" }
    ∧ resolveClient sampleEnv [] none
        = { apiKey := "env-key", locationId := "env-loc" } :=
  ⟨(c1_resolution_order sampleEnv sampleReg).1 "loc_456" acct2 (by decide) (by decide),
   (c1_resolution_order sampleEnv sampleReg).2.1 "loc_999" (by decide) (by decide),
   (c1_resolution_order sampleEnv sampleReg).2.2.1 none (by decide) acct1 (by decide),
   (c1_resolution_order sampleEnv []).2.2.2 none (by decide) (by decide)⟩

/-- C2: over any sequential execution of registry operations from a
well-formed registry with at most one default-flagged row, every reached
state keeps at most one default-flagged row (and stays well-formed); a
registration upsert with the default flag set, and a set-default call
that finds its account, each leave exactly one default-flagged row. -/
theorem c2_single_default_invariant (reg : List SubAccount) (op : RegOp)
    (hWF : WF reg) (hdc : defaultCount reg ≤ 1) :
    (WF (applyOp reg op) ∧ defaultCount (applyOp reg op) ≤ 1)
    ∧ (∀ ops : List RegOp, defaultCount (ops.foldl applyOp reg) ≤ 1)
    ∧ (opAddsDefault op = true → defaultCount (applyOp reg op) = 1)
    ∧ (opSetsDefaultOk reg op = true → defaultCount (applyOp reg op) = 1) := by
  refine ⟨⟨wf_applyOp reg op hWF, defaultCount_applyOp_le reg op hWF hdc⟩,
    fun ops => (invariant_foldl ops reg hWF hdc).2, ?_, ?_⟩
  · intro h
    cases op with
    | add a now =>
      exact defaultCount_addSubAccount_default reg a now (by simpa [opAddsDefault] using h)
    | setDefault l n now => simp [opAddsDefault] at h
    | remove l => simp [opAddsDefault] at h
    | updateToken l k now => simp [opAddsDefault] at h
    | list => simp [opAddsDefault] at h
  · intro h
    cases op with
    | add a now => simp [opSetsDefaultOk] at h
    | setDefault l n now =>
      have hs : (chooseAccount reg l n).isSome = true := by
        simpa [opSetsDefaultOk] using h
      rcases Option.isSome_iff_exists.mp hs with ⟨acc, hacc⟩
      exact defaultCount_setDefault_found now hWF hacc
    | remove l => simp [opSetsDefaultOk] at h
    | updateToken l k now => simp [opSetsDefaultOk] at h
    | list => simp [opSetsDefaultOk] at h

/-- C2 witness: registering a second account with the default flag moves
the unique default to it. -/
theorem c2_single_default_invariant_witness :
    WF sampleReg ∧ defaultCount sampleReg ≤ 1
    ∧ opAddsDefault (RegOp.add
        { locationId := "loc_789", name := "Cedar", apiKey := "pit-333",
          accountType := "sub_account", isDefault := true, notes := none } "t") = true
    ∧ defaultCount (applyOp sampleReg (RegOp.add
        { locationId := "loc_789", name := "Cedar", apiKey := "pit-333",
          accountType := "sub_account", isDefault := true, notes := none } "t")) = 1 :=
  ⟨by decide, by decide, by decide,
   (c2_single_default_invariant sampleReg
      (RegOp.add
        { locationId := "loc_789", name := "Cedar", apiKey := "pit-333",
          accountType := "sub_account", isDefault := true, notes := none } "t")
      (by decide) (by decide)).2.2.1 (by decide)⟩

/-- C6: removing an identifier with no matching registration answers with
the not-found error response and leaves the registry untouched. -/
theorem c6_remove_not_found (reg : List SubAccount) (locationId : String)
    (h : getAccountById reg locationId = none) :
    removeSubAccount reg locationId
      = (reg, { text := "Account not found.", isError := true }) := by
  unfold removeSubAccount
  rw [h]

/-- C6 witness: removing an unregistered identifier from the sample
registry. -/
theorem c6_remove_not_found_witness :
    getAccountById sampleReg "loc_999" = none
    ∧ removeSubAccount sampleReg "loc_999"
        = (sampleReg, { text := "Account not found.", isError := true }) :=
  ⟨by decide, c6_remove_not_found sampleReg "loc_999" (by decide)⟩

/-- C10: supplying the empty string as the tenant identifier is
indistinguishable from omitting it — in `resolveClient` and in every
facade convenience method, whose `locationId || this.locationId` then
targets the client's configured default location. -/
theorem c10_empty_location_id (env : Env) (reg : List SubAccount) (c : GHLClientConfig)
    (objectKey fieldId valueId id : String) :
    resolveClient env reg (some "") = resolveClient env reg none
    ∧ getCustomFieldsByObjectKey c objectKey (some "")
        = getCustomFieldsByObjectKey c objectKey none
    ∧ createCustomField c (some "") = createCustomField c none
    ∧ updateCustomField c id (some "") = updateCustomField c id none
    ∧ createCustomFieldFolder c (some "") = createCustomFieldFolder c none
    ∧ updateCustomFieldFolder c id (some "") = updateCustomFieldFolder c id none
    ∧ deleteCustomFieldFolder c id (some "") = deleteCustomFieldFolder c id none
    ∧ getLocationCustomFields c (some "") = getLocationCustomFields c none
    ∧ getLocationCustomField c fieldId (some "") = getLocationCustomField c fieldId none
    ∧ createLocationCustomField c (some "") = createLocationCustomField c none
    ∧ updateLocationCustomField c fieldId (some "") = updateLocationCustomField c fieldId none
    ∧ deleteLocationCustomField c fieldId (some "") = deleteLocationCustomField c fieldId none
    ∧ getCustomValues c (some "") = getCustomValues c none
    ∧ getCustomValue c valueId (some "") = getCustomValue c valueId none
    ∧ createCustomValue c (some "") = createCustomValue c none
    ∧ updateCustomValue c valueId (some "") = updateCustomValue c valueId none
    ∧ deleteCustomValue c valueId (some "") = deleteCustomValue c valueId none
    ∧ (getLocationCustomFields c (some "")).path
        = "/locations/" ++ c.locationId ++ "/customFields" :=
  ⟨rfl, rfl, rfl, rfl, rfl, rfl, rfl, rfl, rfl, rfl, rfl, rfl, rfl, rfl, rfl, rfl, rfl, rfl⟩

/-- C3, counterexample to the claim as stated: in the bulk-create handler,
`resolveClient` runs before the loop and outside any try/catch, so a
failure raised there (registry access or tenant resolution) propagates to
the transport layer instead of becoming an error response. -/
theorem c3_catch_policy_counterexample :
    ghl_bulk_create_contact_custom_fields_h
      (Except.error "D1_ERROR: database is locked") (fun _ _ => Except.ok "ok") []
      = Except.error "D1_ERROR: database is locked" := rfl

/-- C3 (amended): every tool handler except the bulk-create one catches
every failure raised during its work and answers with a response (an
inner failure becoming the `Error: ...` response with the error flag);
the bulk-create handler isolates per-item facade failures and always
answers once tenant resolution has succeeded, but a tenant-resolution
failure propagates to the transport layer uncaught. -/
theorem c3_catch_policy :
    (∀ dbWork a, (ghl_add_sub_account_h dbWork a).isOk = true)
    ∧ (∀ dbRead, (ghl_list_sub_accounts_h dbRead).isOk = true)
    ∧ (∀ dbRead dbWrite l n, (ghl_set_default_account_h dbRead dbWrite l n).isOk = true)
    ∧ (∀ dbRead dbDelete l, (ghl_remove_sub_account_h dbRead dbDelete l).isOk = true)
    ∧ (∀ dbRead dbWrite l, (ghl_update_sub_account_token_h dbRead dbWrite l).isOk = true)
    ∧ (∀ resolve call, (ghl_list_contact_custom_fields_h resolve call).isOk = true)
    ∧ (∀ resolve call, (ghl_get_contact_custom_field_h resolve call).isOk = true)
    ∧ (∀ resolve call nm, (ghl_create_contact_custom_field_h resolve call nm).isOk = true)
    ∧ (∀ resolve call, (ghl_update_contact_custom_field_h resolve call).isOk = true)
    ∧ (∀ resolve call, (ghl_delete_contact_custom_field_h resolve call).isOk = true)
    ∧ (∀ resolve call, (ghl_list_object_custom_fields_h resolve call).isOk = true)
    ∧ (∀ resolve call, (ghl_create_object_custom_field_h resolve call).isOk = true)
    ∧ (∀ resolve call nm, (ghl_create_custom_field_folder_h resolve call nm).isOk = true)
    ∧ (∀ resolve call, (ghl_list_custom_values_h resolve call).isOk = true)
    ∧ (∀ resolve call nm, (ghl_create_custom_value_h resolve call nm).isOk = true)
    ∧ (∀ resolve call, (ghl_update_custom_value_h resolve call).isOk = true)
    ∧ (∀ resolve call, (ghl_delete_custom_value_h resolve call).isOk = true)
    ∧ (∀ m call fmt, facadeTry (Except.error m) call fmt = errResp m)
    ∧ (∀ c m fmt, facadeTry (Except.ok c) (fun _ => Except.error m) fmt = errResp m)
    ∧ (∀ c call fields,
        (ghl_bulk_create_contact_custom_fields_h (Except.ok c) call fields).isOk = true)
    ∧ (∀ m call fields,
        ghl_bulk_create_contact_custom_fields_h (Except.error m) call fields
          = Except.error m) :=
  ⟨fun _ _ => rfl, fun _ => rfl, fun _ _ _ _ => rfl, fun _ _ _ => rfl, fun _ _ _ => rfl,
   fun _ _ => rfl, fun _ _ => rfl, fun _ _ _ => rfl, fun _ _ => rfl, fun _ _ => rfl,
   fun _ _ => rfl, fun _ _ => rfl, fun _ _ _ => rfl, fun _ _ => rfl, fun _ _ _ => rfl,
   fun _ _ => rfl, fun _ _ => rfl, fun _ _ _ => rfl, fun _ _ _ => rfl,
   fun _ _ _ => rfl, fun _ _ _ => rfl⟩

/-- C4: the bulk loop visits every field in order without aborting, its
per-item records preserve failing items' error messages verbatim, and the
response reports exactly M failures and N−M successes, where M is the
number of upstream failures among the N items. -/
theorem c4_bulk_aggregation (outcomes : List (String × Except String String)) :
    (bulkResults outcomes).map BulkItem.name = outcomes.map Prod.fst
    ∧ (bulkResults outcomes).length = outcomes.length
    ∧ failCount (bulkResults outcomes) = (outcomes.filter isErrOutcome).length
    ∧ successCount (bulkResults outcomes)
        = outcomes.length - failCount (bulkResults outcomes)
    ∧ bulkResponseText (bulkResults outcomes)
        = "Bulk create: "
          ++ toString (outcomes.length - (outcomes.filter isErrOutcome).length)
          ++ " succeeded, " ++ toString ((outcomes.filter isErrOutcome).length)
          ++ " failed.\n\n" ++ renderBulkItems (bulkResults outcomes)
    ∧ ∀ (i : Nat) (n m : String), outcomes[i]? = some (n, Except.error m) →
        (bulkResults outcomes)[i]?
          = some { name := n, success := false, error := some m, data := none } := by
  have hlen := bulkResults_length outcomes
  have hfail := failCount_bulkResults outcomes
  have hsum := successCount_add_failCount (bulkResults outcomes)
  have hsucc : successCount (bulkResults outcomes)
      = outcomes.length - failCount (bulkResults outcomes) := by omega
  refine ⟨bulkResults_name_map outcomes, hlen, hfail, hsucc, ?_, ?_⟩
  · rw [bulkResponseText, hsucc, hfail]
  · intro i n m h
    simp [bulkResults, List.getElem?_map, h]

/-- C4 witness: three items of which the second fails upstream. -/
theorem c4_bulk_aggregation_witness :
    ([("a", Except.ok "da"), ("b", Except.error "GHL API Error 422: boom"),
      ("c", Except.ok "dc")] :
        List (String × Except String String))[1]?
      = some ("b", Except.error "GHL API Error 422: boom")
    ∧ (bulkResults [("a", Except.ok "da"), ("b", Except.error "GHL API Error 422: boom"),
        ("c", Except.ok "dc")])[1]?
      = some { name := "b", success := false,
               error := some "GHL API Error 422: boom", data := none } :=
  ⟨rfl,
   (c4_bulk_aggregation
      [("a", Except.ok "da"), ("b", Except.error "GHL API Error 422: boom"),
       ("c", Except.ok "dc")]).2.2.2.2.2 1 "b" "GHL API Error 422: boom" rfl⟩

/-- Substring test on strings (via character lists). -/
def strIncludes (s pat : String) : Bool := decide (pat.data <:+: s.data)

lemma strIncludes_of_data (s pat : String) (l₁ l₂ : List Char)
    (h : s.data = l₁ ++ pat.data ++ l₂) : strIncludes s pat = true := by
  unfold strIncludes
  simp only [decide_eq_true_eq]
  exact ⟨l₁, l₂, h.symm⟩

/-- The 422 response of the spec's worked example. -/
def resp422 : HttpResponse :=
  { status := 422, statusText := "Unprocessable Entity",
    body := "\x7b\"message\":\"duplicate fieldKey\"\x7d" }

/-- C5: on a non-success status, the request primitive fails with the
composed error message, which contains the numeric status code, the
status text and the raw response body; on a success status it returns the
parsed JSON body unchanged, with no further validation. -/
theorem c5_request_error_surface {α : Type} (parseJson : String → Except String α)
    (r : HttpResponse) :
    (respOk r = false →
      request parseJson r = Except.error (requestErrorMessage r)
      ∧ strIncludes (requestErrorMessage r) (toString r.status) = true
      ∧ strIncludes (requestErrorMessage r) r.statusText = true
      ∧ strIncludes (requestErrorMessage r) r.body = true)
    ∧ (respOk r = true → request parseJson r = parseJson r.body) := by
  constructor
  · intro h
    refine ⟨by simp [request, h], ?_, ?_, ?_⟩
    · exact strIncludes_of_data _ _ "GHL API Error ".data
        (": ".data ++ r.statusText.data ++ " - ".data ++ r.body.data)
        (by simp [requestErrorMessage, String.data_append])
    · exact strIncludes_of_data _ _
        ("GHL API Error ".data ++ (toString r.status).data ++ ": ".data)
        (" - ".data ++ r.body.data)
        (by simp [requestErrorMessage, String.data_append])
    · exact strIncludes_of_data _ _
        ("GHL API Error ".data ++ (toString r.status).data ++ ": ".data
          ++ r.statusText.data ++ " - ".data) []
        (by simp [requestErrorMessage, String.data_append])
  · intro h
    simp [request, h]

/-- C5 witness: the 422 example, also chained through a facade-backed
handler into a flagged textual error response. -/
theorem c5_request_error_surface_witness :
    respOk resp422 = false
    ∧ request (fun s => Except.ok s) resp422 = Except.error (requestErrorMessage resp422)
    ∧ strIncludes (requestErrorMessage resp422) "422" = true
    ∧ strIncludes (requestErrorMessage resp422) "duplicate fieldKey" = true
    ∧ ghl_create_contact_custom_field_h (Except.ok { apiKey := "k", locationId := "loc" })
        (fun _ => request (fun s => Except.ok s) resp422) "F"
        = Except.ok (errResp (requestErrorMessage resp422))
    ∧ (errResp (requestErrorMessage resp422)).isError = true :=
  ⟨by decide, ((c5_request_error_surface (fun s => Except.ok s) resp422).1 (by decide)).1,
   by decide, by decide, rfl, by decide⟩

/-- Spec-side hyperproperty hypothesis for the list tool: two registries
that agree row by row on every column except the stored credential. -/
def sameExceptApiKey : List SubAccount → List SubAccount → Bool
  | [], [] => true
  | a :: t1, b :: t2 =>
    (a.id == b.id && a.name == b.name && a.account_type == b.account_type
      && a.is_default == b.is_default && a.notes == b.notes
      && a.created_at == b.created_at && a.updated_at == b.updated_at)
    && sameExceptApiKey t1 t2
  | _, _ => false

lemma map_projectView_eq : ∀ {r1 r2 : List SubAccount},
    sameExceptApiKey r1 r2 = true → r1.map projectView = r2.map projectView := by
  intro r1
  induction r1 with
  | nil => intro r2 h; cases r2 with
    | nil => rfl
    | cons b t2 => simp [sameExceptApiKey] at h
  | cons a t1 ih =>
    intro r2 h
    cases r2 with
    | nil => simp [sameExceptApiKey] at h
    | cons b t2 =>
      simp only [sameExceptApiKey, Bool.and_eq_true, beq_iff_eq] at h
      obtain ⟨⟨⟨⟨⟨⟨⟨h1, h2⟩, h3⟩, h4⟩, h5⟩, h6⟩, h7⟩, ht⟩ := h
      simp only [List.map_cons]
      rw [ih ht]
      congr 1
      simp [projectView, h1, h2, h3, h4, h5, h6, h7]

/-- C7: the list tool's output never depends on stored credentials — two
registry states differing only in their rows' `api_key` values produce
identical list responses. -/
theorem c7_list_masks_credentials (r1 r2 : List SubAccount)
    (h : sameExceptApiKey r1 r2 = true) :
    listSubAccounts r1 = listSubAccounts r2 := by
  unfold listSubAccounts
  rw [map_projectView_eq h]

/-- Sample registry equal to `sampleReg` except for rotated credentials. -/
def sampleRegRotated : List SubAccount :=
  [{ acct1 with api_key := "rotated-1" }, { acct2 with api_key := "rotated-2" }]

/-- C7 witness: rotating every credential leaves the list output
unchanged. -/
theorem c7_list_masks_credentials_witness :
    sameExceptApiKey sampleReg sampleRegRotated = true
    ∧ listSubAccounts sampleReg = listSubAccounts sampleRegRotated :=
  ⟨by decide, c7_list_masks_credentials sampleReg sampleRegRotated (by decide)⟩

/-- Spec-side predicate for C8: case-insensitive plain substring
containment, the claim's reading of the name match. -/
def specContainsCaseInsensitive (hay needle : String) : Bool :=
  decide ((needle.data.map Char.toLower) <:+: (hay.data.map Char.toLower))

/-- C8, counterexample to the claim as stated: the code matches names with
SQLite `LIKE '%...%'`, not plain substring containment. First, argument
`"_cme"` is not a substring of the only name `"Acme"`, yet the `_`
wildcard makes the call succeed and mutate the registry (claim demands a
not-found error and no change). Second, the empty argument is a substring
of `"Acme"`, yet JavaScript truthiness treats it as absent and the call
reports not-found (claim demands a successful default change). -/
theorem c8_name_match_counterexample :
    (specContainsCaseInsensitive "Acme" "_cme" = false
      ∧ (setDefaultAccount sampleReg none (some "_cme") "t2").2.isError = false
      ∧ ¬(setDefaultAccount sampleReg none (some "_cme") "t2").1 = sampleReg)
    ∧ (specContainsCaseInsensitive "Acme" "" = true
      ∧ (setDefaultAccount sampleReg none (some "") "t2").2.isError = true
      ∧ (setDefaultAccount sampleReg none (some "") "t2").1 = sampleReg) := by
  decide

/-- C8 (amended): for a set-default call given only a non-empty name
argument, if some registration's display name matches the argument under
case-insensitive SQLite LIKE containment (`%` and `_` acting as
wildcards), the call succeeds and a matching registration becomes the
unique default; if no name matches, the tool reports not-found and the
registry is unchanged. -/
theorem c8_set_default_by_name (reg : List SubAccount) (nm now : String)
    (hWF : WF reg) (hne : ¬nm = "") :
    ((∃ r ∈ reg, nameLikeMatches nm r.name = true) →
      (setDefaultAccount reg none (some nm) now).2.isError = false
      ∧ defaultCount (setDefaultAccount reg none (some nm) now).1 = 1
      ∧ ∃ r ∈ (setDefaultAccount reg none (some nm) now).1,
          r.is_default = 1 ∧ nameLikeMatches nm r.name = true)
    ∧ ((∀ r ∈ reg, ¬nameLikeMatches nm r.name = true) →
      setDefaultAccount reg none (some nm) now
        = (reg, { text := "Account not found. Use ghl_list_sub_accounts to see available accounts.",
                  isError := true })) := by
  have hch : chooseAccount reg none (some nm) = getAccountByName reg nm := by
    simp [chooseAccount, jsTruthy, jsOr, hne]
  constructor
  · rintro ⟨r0, hr0, hm0⟩
    cases hf : getAccountByName reg nm with
    | none =>
      exact absurd hm0 (List.find?_eq_none.mp hf r0 hr0)
    | some acc =>
      have hacc : chooseAccount reg none (some nm) = some acc := by rw [hch, hf]
      have hf' : List.find? (fun a => nameLikeMatches nm a.name) reg = some acc := hf
      have haccmem : acc ∈ reg := List.mem_of_find?_eq_some hf'
      have haccmatch :=
        @List.find?_some SubAccount (fun a => nameLikeMatches nm a.name) acc reg hf'
      have hres : setDefaultAccount reg none (some nm) now
          = ((clearDefaults reg).map (fun r =>
                if r.id == acc.id then { r with is_default := 1, updated_at := now } else r),
             okResp ("Default account set to \"" ++ acc.name ++ "\" (" ++ acc.id ++ ")")) := by
        unfold setDefaultAccount
        rw [hacc]
      refine ⟨by rw [hres]; rfl, defaultCount_setDefault_found now hWF hacc, ?_⟩
      rw [hres]
      refine ⟨_, List.mem_map_of_mem _
        (List.mem_map_of_mem (fun a => { a with is_default := 0 }) haccmem), ?_, ?_⟩
      · simp
      · simpa using haccmatch
  · intro hnone
    have hfn : getAccountByName reg nm = none :=
      List.find?_eq_none.mpr (fun x hx => hnone x hx)
    unfold setDefaultAccount
    rw [hch, hfn]

/-- C8 witness: searching `"bravo"` finds `"Bravo Clinic"` and makes it
the unique default. -/
theorem c8_set_default_by_name_witness :
    WF sampleReg ∧ ¬"bravo" = ""
    ∧ (∃ r ∈ sampleReg, nameLikeMatches "bravo" r.name = true)
    ∧ ((setDefaultAccount sampleReg none (some "bravo") "t3").2.isError = false
      ∧ defaultCount (setDefaultAccount sampleReg none (some "bravo") "t3").1 = 1
      ∧ ∃ r ∈ (setDefaultAccount sampleReg none (some "bravo") "t3").1,
          r.is_default = 1 ∧ nameLikeMatches "bravo" r.name = true) :=
  ⟨by decide, by decide, by decide,
   (c8_set_default_by_name sampleReg "bravo" "t3" (by decide) (by decide)).1 (by decide)⟩

/-- C9: a successful token rotation changes only the target row's
`api_key` and `updated_at`: its identifier, name, account type, default
flag, notes and `created_at` are untouched, every other row is entirely
untouched, no row is added or removed, and the call succeeds. -/
theorem c9_token_rotation_frame (reg : List SubAccount) (l k now : String)
    (h : (getAccountById reg l).isSome = true) :
    (updateSubAccountToken reg l k now).2.isError = false
    ∧ (updateSubAccountToken reg l k now).1.length = reg.length
    ∧ ∀ (i : Nat) (old new : SubAccount), reg[i]? = some old →
        (updateSubAccountToken reg l k now).1[i]? = some new →
        (new.id = old.id ∧ new.name = old.name ∧ new.account_type = old.account_type
          ∧ new.is_default = old.is_default ∧ new.notes = old.notes
          ∧ new.created_at = old.created_at)
        ∧ (¬old.id = l → new = old)
        ∧ (old.id = l → new.api_key = k ∧ new.updated_at = now) := by
  rcases Option.isSome_iff_exists.mp h with ⟨acc, hacc⟩
  have hres : updateSubAccountToken reg l k now
      = (reg.map (fun r => if r.id == l then { r with api_key := k, updated_at := now } else r),
         okResp ("API token updated for \"" ++ acc.name ++ "\" (" ++ l ++ ")")) := by
    unfold updateSubAccountToken
    rw [hacc]
  refine ⟨by rw [hres]; rfl, by rw [hres]; simp, ?_⟩
  intro i old new hold hnew
  rw [hres] at hnew
  simp only [List.getElem?_map, hold, Option.map_some'] at hnew
  have hnew' : (if old.id == l then { old with api_key := k, updated_at := now } else old)
      = new := Option.some.inj hnew
  by_cases hid : old.id = l
  · rw [if_pos (by simpa using hid)] at hnew'
    rw [← hnew']
    refine ⟨⟨rfl, rfl, rfl, rfl, rfl, rfl⟩, fun hcon => absurd hid hcon, fun _ => ⟨rfl, rfl⟩⟩
  · rw [if_neg (by simpa using hid)] at hnew'
    rw [← hnew']
    exact ⟨⟨rfl, rfl, rfl, rfl, rfl, rfl⟩, fun _ => rfl, fun hcon => absurd hcon hid⟩

/-- C9 witness: rotating the token of `loc_456` in the sample registry. -/
theorem c9_token_rotation_frame_witness :
    (getAccountById sampleReg "loc_456").isSome = true
    ∧ (updateSubAccountToken sampleReg "loc_456" "pit-999" "t9").2.isError = false
    ∧ (updateSubAccountToken sampleReg "loc_456" "pit-999" "t9").1.length = sampleReg.length
    ∧ ({ acct2 with api_key := "pit-999", updated_at := "t9" } : SubAccount).name = acct2.name :=
  ⟨by decide,
   (c9_token_rotation_frame sampleReg "loc_456" "pit-999" "t9" (by decide)).1,
   (c9_token_rotation_frame sampleReg "loc_456" "pit-999" "t9" (by decide)).2.1,
   ((c9_token_rotation_frame sampleReg "loc_456" "pit-999" "t9" (by decide)).2.2 1 acct2
      { acct2 with api_key := "pit-999", updated_at := "t9" } (by decide) (by decide)).1.2.1⟩

end GHLMcp
